import Mathlib

set_option linter.all false
set_option maxRecDepth 100000

/-
  Verification development for the chains package: chain descriptor
  validation, the default chain registry, and the address codec
  (Bitcoin-family bech32 segwit and EVM-family hex addresses).

  The package implementation itself is absent from the sources at hand;
  only its Go test file is present.  The definitions below are therefore
  modelled from the specification, constrained by the concrete
  expectations recorded in the test file (which is authoritative where
  the two disagree).
-/

namespace Chains

/-! ## Enumerated classifiers

Modelled from the spec: closed sets of declared tags, each with an
explicit zero value.  The numbering follows declaration order; the test
file pins the zero tags and the last tag of each enum
(ChainName_base_sepolia, Network_base, NetworkType_devnet, Vm_evm,
Consensus_op_stack). -/

def ChainName_empty : Int := 0
def ChainName_eth_mainnet : Int := 1
def ChainName_zeta_mainnet : Int := 2
def ChainName_btc_mainnet : Int := 3
def ChainName_polygon_mainnet : Int := 4
def ChainName_bsc_mainnet : Int := 5
def ChainName_goerli_testnet : Int := 6
def ChainName_mumbai_testnet : Int := 7
def ChainName_ganache_testnet : Int := 8
def ChainName_baobab_testnet : Int := 9
def ChainName_bsc_testnet : Int := 10
def ChainName_zeta_testnet : Int := 11
def ChainName_btc_testnet : Int := 12
def ChainName_sepolia_testnet : Int := 13
def ChainName_goerli_localnet : Int := 14
def ChainName_btc_regtest : Int := 15
def ChainName_amoy_testnet : Int := 16
def ChainName_optimism_mainnet : Int := 17
def ChainName_optimism_sepolia : Int := 18
def ChainName_base_mainnet : Int := 19
def ChainName_base_sepolia : Int := 20

/-- Modelled from the spec: the declared value set of the ChainName enum. -/
def ChainName_values : List Int :=
  [0, 1, 2, 3, 4, 5, 6, 7, 8, 9, 10, 11, 12, 13, 14, 15, 16, 17, 18, 19, 20]

def Network_eth : Int := 0
def Network_zeta : Int := 1
def Network_btc : Int := 2
def Network_polygon : Int := 3
def Network_bsc : Int := 4
def Network_optimism : Int := 5
def Network_base : Int := 6

/-- Modelled from the spec: the declared value set of the Network enum. -/
def Network_values : List Int := [0, 1, 2, 3, 4, 5, 6]

def NetworkType_mainnet : Int := 0
def NetworkType_testnet : Int := 1
def NetworkType_privnet : Int := 2
def NetworkType_devnet : Int := 3

/-- Modelled from the spec: the declared value set of the NetworkType enum. -/
def NetworkType_values : List Int := [0, 1, 2, 3]

def Vm_no_vm : Int := 0
def Vm_evm : Int := 1

/-- Modelled from the spec: the declared value set of the Vm enum. -/
def Vm_values : List Int := [0, 1]

def Consensus_ethereum : Int := 0
def Consensus_tendermint : Int := 1
def Consensus_bitcoin : Int := 2
def Consensus_op_stack : Int := 3

/-- Modelled from the spec: the declared value set of the Consensus enum. -/
def Consensus_values : List Int := [0, 1, 2, 3]

/-! ## Chain descriptor and error taxonomy -/

/-- Modelled from the spec: the Chain descriptor value type of the chains
package (implementation file absent from the sources; field set follows
the spec data model and the Go test file). -/
structure Chain where
  ChainId : Int
  ChainName : Int
  Network : Int
  NetworkType : Int
  Vm : Int
  Consensus : Int
  IsExternal : Bool
deriving DecidableEq

/-- Modelled from the spec: the error taxonomy of the chains package
(section 7 of the spec). -/
inductive ChainError where
  | InvalidChain (cause : String)
  | UnsupportedChain (chainId : Int)
  | AddressDecodeError (cause : String)
  | UnknownBtcChain (chainId : Int)
  | UnknownBtcParams (name : String)
deriving DecidableEq

/-- Modelled from the spec: Chain.Validate of the chains package
(implementation absent from the sources).  Checks the six invariants in
the fixed order given by the spec, returning the first violation; the
cause strings are the ones asserted by the Go test file. -/
def Validate (c : Chain) : Except ChainError Unit :=
  if c.ChainId ≤ 0 then
    .error (.InvalidChain "chain ID must be positive")
  else if ¬ (ChainName_values.contains c.ChainName) then
    .error (.InvalidChain "invalid chain name")
  else if ¬ (Network_values.contains c.Network) then
    .error (.InvalidChain "invalid network")
  else if ¬ (NetworkType_values.contains c.NetworkType) then
    .error (.InvalidChain "invalid network type")
  else if ¬ (Vm_values.contains c.Vm) then
    .error (.InvalidChain "invalid vm")
  else if ¬ (Consensus_values.contains c.Consensus) then
    .error (.InvalidChain "invalid consensus")
  else
    .ok ()

/-! ## The default chain registry

Modelled from the spec: the hard-coded default chain list of the chains
package (implementation absent from the sources).  Identifiers are the
well-known ones pinned by the Go test file (8332, 18332, 18444, 1, 5,
and so on); classifier assignments follow the spec data model. -/

-- fields: ChainId, ChainName, Network, NetworkType, Vm, Consensus, IsExternal
def ZetaChainMainnet : Chain := ⟨7000, 2, 1, 0, 1, 1, false⟩
def ZetaChainTestnet : Chain := ⟨7001, 11, 1, 1, 1, 1, false⟩
def ZetaChainDevnet : Chain := ⟨70000, 2, 1, 3, 1, 1, false⟩
def ZetaChainPrivnet : Chain := ⟨101, 2, 1, 2, 1, 1, false⟩
def Ethereum : Chain := ⟨1, 1, 0, 0, 1, 0, true⟩
def Goerli : Chain := ⟨5, 6, 0, 1, 1, 0, true⟩
def Sepolia : Chain := ⟨11155111, 13, 0, 1, 1, 0, true⟩
def GoerliLocalnet : Chain := ⟨1337, 14, 0, 2, 1, 0, true⟩
def BitcoinMainnet : Chain := ⟨8332, 3, 2, 0, 0, 2, true⟩
def BitcoinTestnet : Chain := ⟨18332, 12, 2, 1, 0, 2, true⟩
def BitcoinRegtest : Chain := ⟨18444, 15, 2, 2, 0, 2, true⟩
def BscMainnet : Chain := ⟨56, 5, 4, 0, 1, 0, true⟩
def BscTestnet : Chain := ⟨97, 10, 4, 1, 1, 0, true⟩
def Polygon : Chain := ⟨137, 4, 3, 0, 1, 0, true⟩
def Mumbai : Chain := ⟨80001, 7, 3, 1, 1, 0, true⟩
def Amoy : Chain := ⟨80002, 16, 3, 1, 1, 0, true⟩
def OptimismMainnet : Chain := ⟨10, 17, 5, 0, 1, 3, true⟩
def OptimismSepolia : Chain := ⟨11155420, 18, 5, 1, 1, 3, true⟩
def BaseMainnet : Chain := ⟨8453, 19, 6, 0, 1, 3, true⟩
def BaseSepolia : Chain := ⟨84532, 20, 6, 1, 1, 3, true⟩

/-- Modelled from the spec: DefaultChainsList of the chains package
(implementation absent from the sources): the full fixed sequence of
built-in chains. -/
def DefaultChainsList : List Chain :=
  [ZetaChainMainnet, ZetaChainTestnet, ZetaChainDevnet, ZetaChainPrivnet,
   Ethereum, Goerli, Sepolia, GoerliLocalnet,
   BitcoinMainnet, BitcoinTestnet, BitcoinRegtest,
   BscMainnet, BscTestnet, Polygon, Mumbai, Amoy,
   OptimismMainnet, OptimismSepolia, BaseMainnet, BaseSepolia]

/-! ## Family classification predicates

Modelled from the spec: IsEVMChain and IsBitcoinChain of the chains
package (implementation absent from the sources) resolve an identifier
through a hard-coded identifier list, as the spec permits for speed.
The membership pinned by the Go test file: the external EVM chains are
members, the platform (Zeta) chains and the Bitcoin chains are not. -/

def evmChainIds : List Int :=
  [1, 5, 11155111, 1337, 56, 97, 137, 80001, 80002, 10, 11155420, 8453, 84532]

def btcChainIds : List Int := [8332, 18332, 18444]

/-- Modelled from the spec: IsEVMChain of the chains package (membership
of the identifier in the hard-coded external EVM identifier list). -/
def IsEVMChain (chainID : Int) : Bool := evmChainIds.contains chainID

/-- Modelled from the spec: IsBitcoinChain of the chains package
(membership of the identifier in the three Bitcoin identifiers). -/
def IsBitcoinChain (chainID : Int) : Bool := btcChainIds.contains chainID

/-! ## Chain parameter bridge -/

/-- Modelled from the spec: the Bitcoin network parameter record
(chaincfg.Params).  Only the fields consulted by the modelled
operations are kept: the parameter name used for the inverse lookup and
the bech32 human-readable part used by the segwit address codec. -/
structure BtcParams where
  Name : String
  Bech32HRPSegwit : String
deriving DecidableEq

def MainNetParams : BtcParams := ⟨"mainnet", "bc"⟩
def TestNet3Params : BtcParams := ⟨"testnet3", "tb"⟩
def RegressionNetParams : BtcParams := ⟨"regtest", "bcrt"⟩

/-- Modelled from the spec: GetBTCChainParams of the chains package
(implementation absent from the sources): the fixed magic-byte
parameter record for the three recognized Bitcoin identifiers, failing
with UnknownBtcChain otherwise. -/
def GetBTCChainParams (chainID : Int) : Except ChainError BtcParams :=
  if chainID = 8332 then .ok MainNetParams
  else if chainID = 18332 then .ok TestNet3Params
  else if chainID = 18444 then .ok RegressionNetParams
  else .error (.UnknownBtcChain chainID)

/-- Modelled from the spec: GetBTCChainIDFromChainParams of the chains
package (implementation absent from the sources): inverse lookup by the
parameter record name, failing with UnknownBtcParams for an
unrecognized name. -/
def GetBTCChainIDFromChainParams (params : BtcParams) : Except ChainError Int :=
  if params.Name = "regtest" then .ok 18444
  else if params.Name = "testnet3" then .ok 18332
  else if params.Name = "mainnet" then .ok 8332
  else .error (.UnknownBtcParams params.Name)

/-! ## Byte and string helpers -/

/-- The Go conversion from a string to its byte sequence (ASCII inputs). -/
def strToBytes (s : String) : List Nat := s.data.map (fun c => c.toNat)

/-- The Go conversion from a byte sequence to a string (ASCII inputs). -/
def bytesToStr (b : List Nat) : String := String.mk (b.map (fun n => Char.ofNat n))

/-- Prefix test on the character sequences of two strings. -/
def strHasPrefix (pre s : String) : Bool := pre.data.isPrefixOf s.data

/-! ## EVM hex address helpers

Modelled from the spec: the go-ethereum library behavior the missing
implementation relies on.  BytesToAddress keeps the last 20 bytes,
left-padding with zero bytes when fewer are given; the hex rendering is
modelled with lowercase digits (the library applies checksum casing,
which changes only letter case and which no claim or pinned test output
depends on); hex parsing is case-insensitive, strips an optional 0x
prefix, evens an odd length by prepending a zero digit, and keeps the
byte pairs decoded before the first invalid pair. -/

/-- Left-pad with zero bytes, or truncate to the last bytes, so that the
result has exactly 20 entries (go-ethereum BytesToAddress). -/
def BytesToAddress (b : List Nat) : List Nat :=
  if b.length ≤ 20 then List.replicate (20 - b.length) 0 ++ b
  else b.drop (b.length - 20)

def hexDigit (n : Nat) : Char :=
  if n < 10 then Char.ofNat (48 + n) else Char.ofNat (87 + n)

def byteHex (b : Nat) : List Char := [hexDigit (b / 16 % 16), hexDigit (b % 16)]

def bytesHexChars (b : List Nat) : List Char := b.flatMap byteHex

/-- The lowercase 0x-prefixed hex rendering of an address. -/
def evmAddressHex (a : List Nat) : String := String.mk ('0' :: 'x' :: bytesHexChars a)

def hexVal (c : Char) : Option Nat :=
  if 48 ≤ c.toNat ∧ c.toNat ≤ 57 then some (c.toNat - 48)
  else if 97 ≤ c.toNat ∧ c.toNat ≤ 102 then some (c.toNat - 87)
  else if 65 ≤ c.toNat ∧ c.toNat ≤ 70 then some (c.toNat - 55)
  else none

def hexPairs : List Char → List Nat
  | c1 :: c2 :: rest =>
    match hexVal c1, hexVal c2 with
    | some h, some l => (16 * h + l) :: hexPairs rest
    | _, _ => []
  | _ => []

/-- Parse a hex string into bytes (go-ethereum FromHex followed by
Hex2Bytes semantics). -/
def fromHex (s : String) : List Nat :=
  let cs :=
    match s.data with
    | '0' :: 'x' :: rest => rest
    | '0' :: 'X' :: rest => rest
    | other => other
  hexPairs (if cs.length % 2 = 1 then '0' :: cs else cs)

/-! ## Bech32 segwit codec

Modelled from the spec: the btcsuite bech32/segwit address routines the
missing implementation relies on (BIP 173).  Lowercase strings only,
which is all the repository tests and claims exercise. -/

def bech32Charset : List Char := "qpzry9x8gf2tvdw0s3jn54khce6mua7l".data

def charsetVal (c : Char) : Option Nat := bech32Charset.findIdx? (fun d => d = c)

def charsetChar (n : Nat) : Char := bech32Charset.getD n 'q'

def bech32PolymodStep (chk : Nat) (v : Nat) : Nat :=
  let b := chk / 2 ^ 25
  let chk := (chk % 2 ^ 25) * 32 ^^^ v
  let chk := if b.testBit 0 then chk ^^^ 0x3b6a57b2 else chk
  let chk := if b.testBit 1 then chk ^^^ 0x26508e6d else chk
  let chk := if b.testBit 2 then chk ^^^ 0x1ea119fa else chk
  let chk := if b.testBit 3 then chk ^^^ 0x3d4233dd else chk
  if b.testBit 4 then chk ^^^ 0x2a1462b3 else chk

def bech32Polymod (values : List Nat) : Nat := values.foldl bech32PolymodStep 1

def bech32HrpExpand (hrp : String) : List Nat :=
  hrp.data.map (fun c => c.toNat / 32) ++ [0] ++ hrp.data.map (fun c => c.toNat % 32)

def bech32VerifyChecksum (hrp : String) (values : List Nat) : Bool :=
  bech32Polymod (bech32HrpExpand hrp ++ values) = 1

def bech32CreateChecksum (hrp : String) (values : List Nat) : List Nat :=
  let pm := bech32Polymod (bech32HrpExpand hrp ++ values ++ [0, 0, 0, 0, 0, 0]) ^^^ 1
  [pm / 2 ^ 25 % 32, pm / 2 ^ 20 % 32, pm / 2 ^ 15 % 32,
   pm / 2 ^ 10 % 32, pm / 2 ^ 5 % 32, pm % 32]

/-- Emit the accumulated bit groups of size toBits, most significant
first, returning the emitted groups and the leftover bit count.  The
first argument is fuel bounding the recursion depth; each emission
consumes at least one bit, so the bit count itself is enough fuel. -/
def drainBitsAux : Nat → Nat → Nat → Nat → List Nat × Nat
  | 0, _, bits, _ => ([], bits)
  | fuel + 1, acc, bits, toBits =>
    if 0 < toBits ∧ toBits ≤ bits then
      let out := acc / 2 ^ (bits - toBits) % 2 ^ toBits
      let rest := drainBitsAux fuel acc (bits - toBits) toBits
      (out :: rest.1, rest.2)
    else ([], bits)

def drainBits (acc bits toBits : Nat) : List Nat × Nat :=
  drainBitsAux bits acc bits toBits

/-- Fold the regrouping accumulator over the input values, rejecting a
value that does not fit in fromBits bits. -/
def convChunks (fromBits toBits : Nat) : List Nat → Nat → Nat → Option (List Nat × Nat × Nat)
  | [], acc, bits => some ([], acc, bits)
  | v :: rest, acc, bits =>
    if 2 ^ fromBits ≤ v then none
    else
      let acc2 := acc * 2 ^ fromBits + v
      let drained := drainBits acc2 (bits + fromBits) toBits
      match convChunks fromBits toBits rest acc2 drained.2 with
      | none => none
      | some (outRest, accF, bitsF) => some (drained.1 ++ outRest, accF, bitsF)

/-- Regroup a sequence of fromBits-bit values into toBits-bit values
(BIP 173 convertbits).  With padding, leftover bits are zero-filled on
the right; without padding, nonzero or oversized leftover bits are
rejected. -/
def convertBits (data : List Nat) (fromBits toBits : Nat) (pad : Bool) : Option (List Nat) :=
  match convChunks fromBits toBits data 0 0 with
  | none => none
  | some (out, acc, bits) =>
    if pad then
      some (out ++ (if bits = 0 then [] else [acc * 2 ^ (toBits - bits) % 2 ^ toBits]))
    else if fromBits ≤ bits ∨ acc * 2 ^ (toBits - bits) % 2 ^ toBits ≠ 0 then none
    else some out

/-- Decode a (lowercase) bech32 string into its human-readable part and
its 5-bit data values with the checksum verified and removed. -/
def bech32Decode (s : String) : Option (String × List Nat) :=
  let cs := s.data
  if cs.length > 90 then none
  else
    match cs.reverse.findIdx? (fun c => c = '1') with
    | none => none
    | some ri =>
      let pos := cs.length - 1 - ri
      if pos < 1 ∨ pos + 7 > cs.length then none
      else
        let hrp := String.mk (cs.take pos)
        match (cs.drop (pos + 1)).mapM charsetVal with
        | none => none
        | some values =>
          if bech32VerifyChecksum hrp values then
            some (hrp, values.take (values.length - 6))
          else none

/-- Decode a segwit address into its witness version and program
(btcutil decodeSegWitAddress). -/
def decodeSegWitAddress (s : String) : Option (Nat × List Nat) :=
  match bech32Decode s with
  | none => none
  | some (_, data) =>
    match data with
    | [] => none
    | ver :: rest =>
      if ver > 16 then none
      else
        match convertBits rest 5 8 false with
        | none => none
        | some prog =>
          if prog.length < 2 ∨ prog.length > 40 then none
          else some (ver, prog)

/-- Encode a witness version and program as a bech32 segwit address. -/
def segwitEncode (hrp : String) (version : Nat) (program : List Nat) : Option String :=
  match convertBits program 8 5 true with
  | none => none
  | some grp =>
    let data := version :: grp
    let checksum := bech32CreateChecksum hrp data
    some (hrp ++ "1" ++ String.mk ((data ++ checksum).map charsetChar))

/-- Modelled from the spec: the Bitcoin-family address validation used
by the missing EncodeAddress implementation (btcutil DecodeAddress
against the network parameters followed by the IsForNet check).  A
string is accepted exactly when it carries the bech32 prefix of the
given parameters and decodes as a version 0 segwit address with a 20 or
32 byte program.  The base58 branch of the library, which no claim or
repository test exercises, is modelled as rejection. -/
def btcDecodeAddress (s : String) (params : BtcParams) : Except ChainError Unit :=
  if strHasPrefix (params.Bech32HRPSegwit ++ "1") s then
    match decodeSegWitAddress s with
    | some (0, prog) =>
      if prog.length = 20 ∨ prog.length = 32 then .ok ()
      else .error (.AddressDecodeError "unsupported witness program length")
    | some _ => .error (.AddressDecodeError "unsupported witness version")
    | none => .error (.AddressDecodeError "invalid bech32 encoded address")
  else .error (.AddressDecodeError "decoded address is of unknown format")

/-! ## Address codec dispatch -/

/-- The codec strategy selected for a chain descriptor. -/
inductive CodecStrategy where
  | bitcoin
  | evm
  | unsupported
deriving DecidableEq

/-- Modelled from the spec: the strategy selection shared by
EncodeAddress and DecodeAddress of the chains package (implementation
absent from the sources).  Per the Go test file the selection keys on
the chain identifier alone: a descriptor whose identifier is in the EVM
list encodes as EVM even with all classifier fields left at zero. -/
def codecStrategy (c : Chain) : CodecStrategy :=
  if IsEVMChain c.ChainId then .evm
  else if IsBitcoinChain c.ChainId then .bitcoin
  else .unsupported

/-- Modelled from the spec: EncodeAddress of the chains package
(implementation absent from the sources), constrained by the Go test
file: the EVM branch pads or truncates the input to 20 bytes and
renders it as hex, failing only on empty input; the Bitcoin branch
validates the input string against the network parameters of the chain
and returns it unchanged; any other chain is unsupported. -/
def EncodeAddress (c : Chain) (b : List Nat) : Except ChainError String :=
  match codecStrategy c with
  | .evm =>
    if b.isEmpty then .error (.AddressDecodeError "invalid EVM address")
    else .ok (evmAddressHex (BytesToAddress b))
  | .bitcoin =>
    match GetBTCChainParams c.ChainId with
    | .error e => .error e
    | .ok params =>
      let s := bytesToStr b
      match btcDecodeAddress s params with
      | .error e => .error e
      | .ok _ => .ok s
  | .unsupported => .error (.UnsupportedChain c.ChainId)

/-- Modelled from the spec: DecodeAddress of the chains package
(implementation absent from the sources), constrained by the Go test
file: the EVM branch parses a hex string into a 20 byte address; the
Bitcoin branch returns the bytes of the string with no validation (the
test decodes a mainnet address on the testnet chain successfully); any
other chain is unsupported. -/
def DecodeAddress (c : Chain) (addr : String) : Except ChainError (List Nat) :=
  match codecStrategy c with
  | .evm => .ok (BytesToAddress (fromHex addr))
  | .bitcoin => .ok (strToBytes addr)
  | .unsupported => .error (.UnsupportedChain c.ChainId)

/-- Modelled from the spec: BTCAddressFromWitnessProgram of the chains
package (implementation absent from the sources): resolve the chain
parameters, require a 20 byte program (btcutil
NewAddressWitnessPubKeyHash), and return its bech32 segwit encoding. -/
def BTCAddressFromWitnessProgram (c : Chain) (witnessProgram : List Nat) : Except ChainError String :=
  match GetBTCChainParams c.ChainId with
  | .error e => .error e
  | .ok params =>
    if witnessProgram.length = 20 then
      match segwitEncode params.Bech32HRPSegwit 0 witnessProgram with
      | some addr => .ok addr
      | none => .error (.AddressDecodeError "failed to encode witness program")
    else .error (.AddressDecodeError "witness program must be 20 bytes for p2wpkh")

/-! ## Spec-side strategy recognition

These two definitions follow the words of the spec rather than the
code: the spec describes strategy selection as keyed on the network and
vm fields, with the Bitcoin-like variant for the Bitcoin network family
and the EVM-like variant for EVM virtual machines.  They exist to state
the spec reading that claims C3 and C9 assert, for comparison with the
identifier-keyed selection the test file attests. -/

/-- Spec reading: a descriptor recognized by the Bitcoin-family
strategy (network is the Bitcoin family). -/
def specRecognizedByBitcoinStrategy (c : Chain) : Bool := c.Network = Network_btc

/-- Spec reading: a descriptor recognized by the EVM-family strategy
(vm is the EVM tag). -/
def specRecognizedByEvmStrategy (c : Chain) : Bool := c.Vm = Vm_evm

/-! ## Concrete descriptors from the Go test file -/

/-- The btc testnet descriptor of the Go test file (only name and
identifier set, other fields at their zero values). -/
def chainBtcTestnetT : Chain := ⟨18332, 12, 0, 0, 0, 0, false⟩

/-- The btc mainnet descriptor of the Go test file. -/
def chainBtcMainnetT : Chain := ⟨8332, 3, 0, 0, 0, 0, false⟩

/-- The goerli descriptor of the Go test file. -/
def chainGoerliT : Chain := ⟨5, 6, 0, 0, 0, 0, false⟩

/-- The unsupported descriptor of the Go test file (name and identifier
999). -/
def chain999 : Chain := ⟨999, 999, 0, 0, 0, 0, false⟩

/-- The mainnet bech32 address exercised by the Go test file. -/
def btcTestAddr : String := "bc1qk0cc73p8m7hswn8y2q080xa4e5pxapnqgp7h9c"

/-- A descriptor with the goerli identifier but classifier values far
outside every declared enum range. -/
def chainWeird : Chain := ⟨5, 6, 999, 1, 999, 0, false⟩

/-! # Helper lemmas -/

theorem bytesHexChars_cons (x : Nat) (xs : List Nat) :
    bytesHexChars (x :: xs) =
      hexDigit (x / 16 % 16) :: hexDigit (x % 16) :: bytesHexChars xs := by
  simp [bytesHexChars, byteHex]

theorem bytesHexChars_length (b : List Nat) : (bytesHexChars b).length = 2 * b.length := by
  induction b with
  | nil => rfl
  | cons x xs ih => simp [bytesHexChars_cons, ih]; omega

theorem hexVal_hexDigit (n : Nat) (h : n < 16) : hexVal (hexDigit n) = some n := by
  interval_cases n <;> rfl

theorem hexPairs_cons_pair (h l : Nat) (hh : h < 16) (hl : l < 16) (rest : List Char) :
    hexPairs (hexDigit h :: hexDigit l :: rest) = (16 * h + l) :: hexPairs rest := by
  simp [hexPairs, hexVal_hexDigit h hh, hexVal_hexDigit l hl]

theorem hexPairs_bytesHexChars (b : List Nat) (hb : ∀ x ∈ b, x < 256) :
    hexPairs (bytesHexChars b) = b := by
  induction b with
  | nil => rfl
  | cons x xs ih =>
    have hx : x < 256 := hb x (by simp)
    rw [bytesHexChars_cons,
      hexPairs_cons_pair _ _ (Nat.mod_lt _ (by omega)) (Nat.mod_lt _ (by omega))]
    have hdiv : x / 16 < 16 := by omega
    rw [Nat.mod_eq_of_lt hdiv]
    have hxeq : 16 * (x / 16) + x % 16 = x := by omega
    rw [hxeq, ih (fun y hy => hb y (by simp [hy]))]

theorem BytesToAddress_length (b : List Nat) : (BytesToAddress b).length = 20 := by
  unfold BytesToAddress
  split <;> simp <;> omega

theorem BytesToAddress_of_len20 (b : List Nat) (h : b.length = 20) : BytesToAddress b = b := by
  unfold BytesToAddress
  rw [h]
  simp

theorem fromHex_evmAddressHex (a : List Nat) (ha : ∀ x ∈ a, x < 256) :
    fromHex (evmAddressHex a) = a := by
  show hexPairs
      (if (bytesHexChars a).length % 2 = 1 then '0' :: bytesHexChars a else bytesHexChars a) = a
  rw [bytesHexChars_length]
  simp [Nat.mul_mod_right]
  exact hexPairs_bytesHexChars a ha

theorem convChunks_isSome (fromBits toBits : Nat) (data : List Nat) (acc bits : Nat)
    (h : ∀ v ∈ data, v < 2 ^ fromBits) :
    (convChunks fromBits toBits data acc bits).isSome = true := by
  induction data generalizing acc bits with
  | nil => rfl
  | cons v rest ih =>
    have hv : v < 2 ^ fromBits := h v (by simp)
    have hrest := ih (acc * 2 ^ fromBits + v)
      (drainBits (acc * 2 ^ fromBits + v) (bits + fromBits) toBits).2
      (fun w hw => h w (by simp [hw]))
    unfold convChunks
    rw [if_neg (by omega)]
    obtain ⟨t, ht⟩ := Option.isSome_iff_exists.mp hrest
    obtain ⟨out, accF, bitsF⟩ := t
    simp only [ht, Option.isSome_some]

theorem convertBits_pad_isSome (data : List Nat) (fromBits toBits : Nat)
    (h : ∀ v ∈ data, v < 2 ^ fromBits) :
    (convertBits data fromBits toBits true).isSome = true := by
  have hcc := convChunks_isSome fromBits toBits data 0 0 h
  unfold convertBits
  revert hcc
  cases convChunks fromBits toBits data 0 0 with
  | none => intro hcc; simp at hcc
  | some t => intro hcc; rfl

theorem segwitEncode_isSome (hrp : String) (program : List Nat)
    (h : ∀ x ∈ program, x < 256) :
    (segwitEncode hrp 0 program).isSome = true := by
  have hcb := convertBits_pad_isSome program 8 5 (by simpa using h)
  unfold segwitEncode
  revert hcb
  cases convertBits program 8 5 true with
  | none => intro hcb; simp at hcb
  | some grp => intro hcb; rfl

theorem isBitcoinChain_cases (id : Int) (h : IsBitcoinChain id = true) :
    id = 8332 ∨ id = 18332 ∨ id = 18444 := by
  simpa [IsBitcoinChain, btcChainIds, List.contains] using h

theorem isBitcoinChain_ne (id : Int) (h : IsBitcoinChain id = false) :
    id ≠ 8332 ∧ id ≠ 18332 ∧ id ≠ 18444 := by
  simpa [IsBitcoinChain, btcChainIds, List.contains] using h

theorem getBTCChainParams_not_btc (id : Int) (h : IsBitcoinChain id = false) :
    GetBTCChainParams id = .error (.UnknownBtcChain id) := by
  obtain ⟨h1, h2, h3⟩ := isBitcoinChain_ne id h
  unfold GetBTCChainParams
  rw [if_neg h1, if_neg h2, if_neg h3]

theorem btcAddressFromWitnessProgram_ok (c : Chain) (params : BtcParams) (p : List Nat)
    (hgp : GetBTCChainParams c.ChainId = .ok params) (hp : ∀ x ∈ p, x < 256) :
    ((BTCAddressFromWitnessProgram c p).isOk = true ↔ p.length = 20) := by
  unfold BTCAddressFromWitnessProgram
  simp only [hgp]
  by_cases hlen : p.length = 20
  · rw [if_pos hlen]
    obtain ⟨addr, ha⟩ :=
      Option.isSome_iff_exists.mp (segwitEncode_isSome params.Bech32HRPSegwit p hp)
    rw [ha]
    simp [hlen, Except.isOk, Except.toBool]
  · rw [if_neg hlen]
    simp [hlen, Except.isOk, Except.toBool]

/-! # Claim theorems -/

/-- C5: for every chain descriptor, Validate fails with an InvalidChain
error on the first violated invariant in the fixed order (non-positive
chain identifier, then chain name, then network, then network type,
then vm, then consensus), reporting exactly one violation even when
several fields are invalid, and succeeds exactly when all six checks
pass. -/
theorem c5_validate_first_violation (c : Chain) :
    (Validate c = .ok () ↔
      (0 < c.ChainId ∧ ChainName_values.contains c.ChainName = true ∧
       Network_values.contains c.Network = true ∧
       NetworkType_values.contains c.NetworkType = true ∧
       Vm_values.contains c.Vm = true ∧
       Consensus_values.contains c.Consensus = true)) ∧
    (c.ChainId ≤ 0 →
      Validate c = .error (.InvalidChain "chain ID must be positive")) ∧
    (0 < c.ChainId → ChainName_values.contains c.ChainName = false →
      Validate c = .error (.InvalidChain "invalid chain name")) ∧
    (0 < c.ChainId → ChainName_values.contains c.ChainName = true →
      Network_values.contains c.Network = false →
      Validate c = .error (.InvalidChain "invalid network")) ∧
    (0 < c.ChainId → ChainName_values.contains c.ChainName = true →
      Network_values.contains c.Network = true →
      NetworkType_values.contains c.NetworkType = false →
      Validate c = .error (.InvalidChain "invalid network type")) ∧
    (0 < c.ChainId → ChainName_values.contains c.ChainName = true →
      Network_values.contains c.Network = true →
      NetworkType_values.contains c.NetworkType = true →
      Vm_values.contains c.Vm = false →
      Validate c = .error (.InvalidChain "invalid vm")) ∧
    (0 < c.ChainId → ChainName_values.contains c.ChainName = true →
      Network_values.contains c.Network = true →
      NetworkType_values.contains c.NetworkType = true →
      Vm_values.contains c.Vm = true →
      Consensus_values.contains c.Consensus = false →
      Validate c = .error (.InvalidChain "invalid consensus")) := by
  unfold Validate
  split_ifs with h1 h2 h3 h4 h5 h6 <;>
    refine ⟨?_, ?_, ?_, ?_, ?_, ?_, ?_⟩ <;>
    simp_all <;> omega

/-- C5 witness: a descriptor violating all six invariants at once is
reported with exactly the first violation of the fixed order. -/
theorem c5_validate_first_violation_witness :
    Validate ⟨0, 999, 999, 999, 999, 999, false⟩ =
      .error (.InvalidChain "chain ID must be positive") :=
  (c5_validate_first_violation ⟨0, 999, 999, 999, 999, 999, false⟩).2.1 (by decide)

/-- C6: every chain descriptor in the sequence produced by
DefaultChainsList satisfies Validate (registry self-consistency). -/
theorem c6_default_chains_valid : ∀ c ∈ DefaultChainsList, Validate c = .ok () := by
  intro c hc
  fin_cases hc <;> rfl

/-- C6 witness: the first default registry entry validates. -/
theorem c6_default_chains_valid_witness : Validate ZetaChainMainnet = .ok () :=
  c6_default_chains_valid ZetaChainMainnet (by simp [DefaultChainsList])

/-- C1 counterexample: the Go test file feeds the EVM-family goerli
descriptor the five ASCII bytes of the text 0x321 and expects success
with the zero-padded hex rendering, so encodeAddress does not fail on
inputs whose length differs from 20. -/
theorem c1_evm_encode_length_counterexample :
    (strToBytes "0x321").length ≠ 20 ∧
    EncodeAddress chainGoerliT (strToBytes "0x321") =
      .ok "0x0000000000000000000000000000003078333231" :=
  ⟨by decide, rfl⟩

/-- C1 amended: for every chain descriptor dispatched to the EVM
family, encodeAddress succeeds on every nonempty input of any length
and fails with an AddressDecodeError exactly on the empty input. -/
theorem c1_evm_encode_amended (c : Chain) (b : List Nat)
    (h : codecStrategy c = .evm) :
    ((EncodeAddress c b).isOk = true ↔ b ≠ []) ∧
    (EncodeAddress c b = .error (.AddressDecodeError "invalid EVM address") ↔ b = []) := by
  unfold EncodeAddress
  rw [h]
  cases b <;> simp [Except.isOk, Except.toBool]

/-- C1 amended witness: the empty input fails on the goerli chain. -/
theorem c1_evm_encode_amended_witness :
    codecStrategy chainGoerliT = .evm ∧
    EncodeAddress chainGoerliT [] = .error (.AddressDecodeError "invalid EVM address") :=
  ⟨rfl, (c1_evm_encode_amended chainGoerliT [] rfl).2.mpr rfl⟩

/-- C10: for every chain descriptor dispatched to the EVM family,
encodeAddress fails exactly on the empty input, and every nonempty
input of any length succeeds with the bytes left-zero-padded or
truncated to 20 bytes before the hexadecimal rendering. -/
theorem c10_evm_encode_total (c : Chain) (b : List Nat)
    (h : IsEVMChain c.ChainId = true) :
    (b = [] → EncodeAddress c b = .error (.AddressDecodeError "invalid EVM address")) ∧
    (b ≠ [] → EncodeAddress c b = .ok (evmAddressHex (BytesToAddress b))) ∧
    (BytesToAddress b).length = 20 ∧
    (b.length ≤ 20 → BytesToAddress b = List.replicate (20 - b.length) 0 ++ b) ∧
    (20 < b.length → BytesToAddress b = b.drop (b.length - 20)) := by
  refine ⟨?_, ?_, BytesToAddress_length b, ?_, ?_⟩
  · intro hb
    subst hb
    unfold EncodeAddress codecStrategy
    rw [h]
    rfl
  · intro hb
    unfold EncodeAddress codecStrategy
    rw [h]
    simp [hb]
  · intro hl
    unfold BytesToAddress
    rw [if_pos hl]
  · intro hl
    unfold BytesToAddress
    rw [if_neg (by omega)]

/-- C10 witness: the five ASCII bytes of 0x321 on the goerli chain are
zero-padded to 20 bytes and rendered as hex. -/
theorem c10_evm_encode_total_witness :
    IsEVMChain chainGoerliT.ChainId = true ∧
    EncodeAddress chainGoerliT (strToBytes "0x321") =
      .ok (evmAddressHex (BytesToAddress (strToBytes "0x321"))) :=
  ⟨rfl, (c10_evm_encode_total chainGoerliT (strToBytes "0x321") rfl).2.1 (by decide)⟩

/-- C4: for every chain descriptor dispatched to the EVM family and
every byte sequence of length exactly 20, decodeAddress applied to the
result of encodeAddress succeeds and returns the original bytes. -/
theorem c4_evm_roundtrip (c : Chain) (b : List Nat)
    (hevm : codecStrategy c = .evm) (hlen : b.length = 20)
    (hbytes : ∀ x ∈ b, x < 256) :
    EncodeAddress c b = .ok (evmAddressHex b) ∧
    DecodeAddress c (evmAddressHex b) = .ok b := by
  constructor
  · unfold EncodeAddress
    rw [hevm]
    have hne : b ≠ [] := by
      intro hb
      rw [hb] at hlen
      simp at hlen
    simp [hne, BytesToAddress_of_len20 b hlen]
  · unfold DecodeAddress
    rw [hevm, fromHex_evmAddressHex b hbytes, BytesToAddress_of_len20 b hlen]

/-- C4 witness: the padded 20-byte form of the ASCII text 0x321 on the
goerli chain round-trips through encodeAddress and decodeAddress. -/
theorem c4_evm_roundtrip_witness :
    codecStrategy chainGoerliT = .evm ∧
    (List.replicate 15 0 ++ strToBytes "0x321").length = 20 ∧
    EncodeAddress chainGoerliT (List.replicate 15 0 ++ strToBytes "0x321") =
      .ok (evmAddressHex (List.replicate 15 0 ++ strToBytes "0x321")) ∧
    DecodeAddress chainGoerliT (evmAddressHex (List.replicate 15 0 ++ strToBytes "0x321")) =
      .ok (List.replicate 15 0 ++ strToBytes "0x321") :=
  ⟨rfl, by decide,
   (c4_evm_roundtrip chainGoerliT (List.replicate 15 0 ++ strToBytes "0x321")
     rfl (by decide) (by decide)).1,
   (c4_evm_roundtrip chainGoerliT (List.replicate 15 0 ++ strToBytes "0x321")
     rfl (by decide) (by decide)).2⟩

/-- C2 counterexample: on the btc testnet descriptor of the Go test
file, encodeAddress rejects the mainnet bech32 address (wrong network
parameters) while decodeAddress accepts the very same string and
returns its bytes unchanged, and the same string is accepted unchanged
by encodeAddress on its own mainnet chain; so decodeAddress does not
perform the network-parameter validation that encodeAddress performs. -/
theorem c2_btc_decode_counterexample :
    EncodeAddress chainBtcTestnetT (strToBytes btcTestAddr) =
      .error (.AddressDecodeError "decoded address is of unknown format") ∧
    DecodeAddress chainBtcTestnetT btcTestAddr = .ok (strToBytes btcTestAddr) ∧
    EncodeAddress chainBtcMainnetT (strToBytes btcTestAddr) = .ok btcTestAddr :=
  ⟨rfl, rfl, rfl⟩

/-- C2 amended: for every Bitcoin-family chain descriptor and every
input string, decodeAddress performs no validation at all: it always
succeeds and returns the bytes of the input string unchanged. -/
theorem c2_btc_decode_amended (c : Chain) (s : String)
    (h : codecStrategy c = .bitcoin) :
    DecodeAddress c s = .ok (strToBytes s) := by
  unfold DecodeAddress
  rw [h]

/-- C2 amended witness: an arbitrary string decodes unchanged on the
btc testnet chain. -/
theorem c2_btc_decode_amended_witness :
    codecStrategy chainBtcTestnetT = .bitcoin ∧
    DecodeAddress chainBtcTestnetT "not an address" = .ok (strToBytes "not an address") :=
  ⟨rfl, c2_btc_decode_amended chainBtcTestnetT "not an address" rfl⟩

/-- C3 counterexample: the goerli descriptor and the unsupported 999
descriptor of the Go test file agree on their network and vm fields
(both at the zero values), yet they select different codec strategies:
the first encodes successfully as an EVM address while the second fails
as unsupported.  Strategy selection is therefore not a function of
network and vm. -/
theorem c3_dispatch_counterexample :
    chainGoerliT.Network = chain999.Network ∧
    chainGoerliT.Vm = chain999.Vm ∧
    codecStrategy chainGoerliT ≠ codecStrategy chain999 ∧
    EncodeAddress chainGoerliT (strToBytes "0x321") =
      .ok "0x0000000000000000000000000000003078333231" ∧
    EncodeAddress chain999 (strToBytes "0x321") = .error (.UnsupportedChain 999) :=
  ⟨rfl, rfl, by decide, rfl, rfl⟩

/-- C3 amended: the codec strategy shared by encodeAddress and
decodeAddress is a function of the chain identifier alone: any two
descriptors with equal identifiers select the same strategy, whatever
their chain names, networks or vm fields. -/
theorem c3_dispatch_by_chain_id (c1 c2 : Chain) (h : c1.ChainId = c2.ChainId) :
    codecStrategy c1 = codecStrategy c2 := by
  unfold codecStrategy
  rw [h]

/-- C3 amended witness: the bare goerli test descriptor and the fully
populated goerli registry descriptor share the identifier 5 and select
the same strategy. -/
theorem c3_dispatch_by_chain_id_witness :
    chainGoerliT.ChainId = Goerli.ChainId ∧ chainGoerliT ≠ Goerli ∧
    codecStrategy chainGoerliT = codecStrategy Goerli :=
  ⟨rfl, by decide, c3_dispatch_by_chain_id chainGoerliT Goerli rfl⟩

/-- C7 counterexample: a witness program is a bare 20-byte hash and
carries no network information, so the program built under the
regression-test parameters in the Go test file succeeds against the
testnet chain (the test itself expects success there); here the same
20-byte program is accepted by every Bitcoin-family chain, so
addressFromWitnessProgram does not fail on a program from a different
network. -/
theorem c7_witness_program_counterexample :
    (BTCAddressFromWitnessProgram BitcoinTestnet (List.range 20)).isOk = true ∧
    (BTCAddressFromWitnessProgram BitcoinRegtest (List.range 20)).isOk = true ∧
    (BTCAddressFromWitnessProgram BitcoinMainnet (List.range 20)).isOk = true :=
  ⟨rfl, rfl, rfl⟩

/-- C7 amended: addressFromWitnessProgram fails when the chain is not
Bitcoin-family (UnknownBtcChain) and fails for a program whose length
is not exactly 20 bytes (for example 19 of 20 bytes); it succeeds for
every 20-byte program on a Bitcoin-family chain, regardless of which
network parameters the program was derived under. -/
theorem c7_witness_program_amended (c : Chain) (p : List Nat)
    (hp : ∀ x ∈ p, x < 256) :
    (IsBitcoinChain c.ChainId = false →
      BTCAddressFromWitnessProgram c p = .error (.UnknownBtcChain c.ChainId)) ∧
    (IsBitcoinChain c.ChainId = true →
      ((BTCAddressFromWitnessProgram c p).isOk = true ↔ p.length = 20)) := by
  constructor
  · intro h
    unfold BTCAddressFromWitnessProgram
    rw [getBTCChainParams_not_btc c.ChainId h]
  · intro h
    rcases isBitcoinChain_cases c.ChainId h with h3 | h3 | h3
    · exact btcAddressFromWitnessProgram_ok c MainNetParams p (by rw [h3]; rfl) hp
    · exact btcAddressFromWitnessProgram_ok c TestNet3Params p (by rw [h3]; rfl) hp
    · exact btcAddressFromWitnessProgram_ok c RegressionNetParams p (by rw [h3]; rfl) hp

/-- C7 amended witness: a non-Bitcoin chain fails with UnknownBtcChain,
and a truncated 19-byte program is not accepted on the testnet chain. -/
theorem c7_witness_program_amended_witness :
    (IsBitcoinChain Goerli.ChainId = false ∧
      BTCAddressFromWitnessProgram Goerli (List.range 20) =
        .error (.UnknownBtcChain 5)) ∧
    ((BTCAddressFromWitnessProgram BitcoinTestnet (List.range 19)).isOk = true ↔
      (List.range 19).length = 20) :=
  ⟨⟨rfl, (c7_witness_program_amended Goerli (List.range 20) (by decide)).1 rfl⟩,
   (c7_witness_program_amended BitcoinTestnet (List.range 19) (by decide)).2 rfl⟩

/-- C8: GetBTCChainIDFromChainParams is the exact inverse of
GetBTCChainParams on each of the three recognized Bitcoin-family
identifiers; GetBTCChainParams fails with UnknownBtcChain on any other
identifier; and GetBTCChainIDFromChainParams fails with
UnknownBtcParams on a parameter record with an unrecognized name. -/
theorem c8_btc_params_inverse :
    (∀ id : Int, IsBitcoinChain id = true →
      ∃ p, GetBTCChainParams id = .ok p ∧ GetBTCChainIDFromChainParams p = .ok id) ∧
    (∀ id : Int, IsBitcoinChain id = false →
      GetBTCChainParams id = .error (.UnknownBtcChain id)) ∧
    (∀ p : BtcParams, p.Name ≠ "mainnet" → p.Name ≠ "testnet3" → p.Name ≠ "regtest" →
      GetBTCChainIDFromChainParams p = .error (.UnknownBtcParams p.Name)) := by
  refine ⟨?_, ?_, ?_⟩
  · intro id h
    rcases isBitcoinChain_cases id h with h3 | h3 | h3 <;> subst h3
    · exact ⟨MainNetParams, rfl, rfl⟩
    · exact ⟨TestNet3Params, rfl, rfl⟩
    · exact ⟨RegressionNetParams, rfl, rfl⟩
  · exact getBTCChainParams_not_btc
  · intro p h1 h2 h3
    unfold GetBTCChainIDFromChainParams
    rw [if_neg h3, if_neg h2, if_neg h1]

/-- C8 witness: the regtest identifier 18444 round-trips through the
parameter bridge, and an unknown parameter name fails. -/
theorem c8_btc_params_inverse_witness :
    IsBitcoinChain 18444 = true ∧
    (∃ p, GetBTCChainParams 18444 = .ok p ∧
      GetBTCChainIDFromChainParams p = .ok 18444) ∧
    GetBTCChainIDFromChainParams ⟨"unknown", ""⟩ =
      .error (.UnknownBtcParams "unknown") :=
  ⟨rfl, c8_btc_params_inverse.1 18444 rfl,
   c8_btc_params_inverse.2.2 ⟨"unknown", ""⟩ (by decide) (by decide) (by decide)⟩

/-- C9 counterexample: a descriptor with the goerli identifier but
classifier values outside every declared range, hence with a network
and vm combination recognized by neither the Bitcoin-family nor the
EVM-family strategy as the spec describes them, nevertheless has both
operations succeed; so failing with UnsupportedChain is not the only
possible outcome for such descriptors. -/
theorem c9_unsupported_counterexample :
    Network_values.contains chainWeird.Network = false ∧
    Vm_values.contains chainWeird.Vm = false ∧
    specRecognizedByEvmStrategy chainWeird = false ∧
    specRecognizedByBitcoinStrategy chainWeird = false ∧
    EncodeAddress chainWeird (strToBytes "0x321") =
      .ok "0x0000000000000000000000000000003078333231" ∧
    (DecodeAddress chainWeird "0x321").isOk = true :=
  ⟨rfl, rfl, rfl, rfl, rfl, rfl⟩

/-- C9 amended: for every chain descriptor whose chain identifier is
recognized by neither the EVM identifier list nor the Bitcoin
identifier list, both encodeAddress and decodeAddress fail, for every
input, with an UnsupportedChain error naming the chain identifier; the
network and vm fields play no role in the selection. -/
theorem c9_unsupported_amended (c : Chain)
    (h1 : IsEVMChain c.ChainId = false) (h2 : IsBitcoinChain c.ChainId = false) :
    (∀ b : List Nat, EncodeAddress c b = .error (.UnsupportedChain c.ChainId)) ∧
    (∀ s : String, DecodeAddress c s = .error (.UnsupportedChain c.ChainId)) := by
  constructor
  · intro b
    unfold EncodeAddress codecStrategy
    rw [h1, h2]
    rfl
  · intro s
    unfold DecodeAddress codecStrategy
    rw [h1, h2]
    rfl

/-- C9 amended witness: the 999 descriptor of the Go test file fails
both ways with UnsupportedChain 999. -/
theorem c9_unsupported_amended_witness :
    IsEVMChain chain999.ChainId = false ∧
    IsBitcoinChain chain999.ChainId = false ∧
    EncodeAddress chain999 (strToBytes "0x321") = .error (.UnsupportedChain 999) ∧
    DecodeAddress chain999 "" = .error (.UnsupportedChain 999) :=
  ⟨rfl, rfl,
   (c9_unsupported_amended chain999 rfl rfl).1 (strToBytes "0x321"),
   (c9_unsupported_amended chain999 rfl rfl).2 ""⟩

end Chains

